import Mathlib

/-!
Verification of the Dynamic Line Rating (DLR) numerical core.

This file is a shallow embedding, over the real numbers, of the numeric
engine of the DLR demo application (the "Alpen Edition" component with the
IEEE-like and CIGRE-like convection variants): wind blending, resistance
and heat-flux models, the damped fixed-point equilibrium solver for the
conductor temperature, the ampacity bisection search, the rating
percentage, and the risk classifier.  Machine floating point is idealised
as real arithmetic; loops with a fixed iteration budget are embedded as
fuelled structural recursions.  The claim theorems at the end of the file
settle the frozen specification claims against these definitions.
-/

namespace DLR

noncomputable section

/-- Lower clamp offset for the conductor temperature: Tc is kept at or
above Ta + TC_MIN_DELTA (source constant TC_MIN_DELTA = -5). -/
def TC_MIN_DELTA : ℝ := -5

/-- Operating temperature limit in degrees Celsius (source constant TC_MAX = 80). -/
def TC_MAX : ℝ := 80

/-- Reference irradiance of the static rating case (source constant GHI_REF = 800). -/
def GHI_REF : ℝ := 800

/-- Reference wind speed of the static rating case (source constant V_REF = 0.6). -/
def V_REF : ℝ := 0.6

/-- Reference air temperature of the static rating case (source constant T_STATIC_REF = 35). -/
def T_STATIC_REF : ℝ := 35

/-- Stefan-Boltzmann constant (source constant SIGMA). -/
def SIGMA : ℝ := 5.670374419e-8

/-- Emissivity (source constant EPS = 0.8). -/
def EPS : ℝ := 0.8

/-- Solar absorptivity (source constant ALPHA_SOLAR = 0.5). -/
def ALPHA_SOLAR : ℝ := 0.5

/-- Conductor diameter in metres (source constant DIAM = 0.028). -/
def DIAM : ℝ := 0.028

/-- Heat-exchange perimeter per metre of conductor (source constant PERIM = pi * DIAM). -/
def PERIM : ℝ := Real.pi * DIAM

/-- Resistance per metre at 20 degrees Celsius (source constant R20_PER_M = 3.0e-5). -/
def R20_PER_M : ℝ := 3.0e-5

/-- Temperature coefficient of the resistance (source constant ALPHA_R = 0.0039). -/
def ALPHA_R : ℝ := 0.0039

/-- Translation of the clamp helper (part_001 line 48):
clamp(x, lo, hi) = max(lo, min(hi, x)). -/
def clamp (x lo hi : ℝ) : ℝ := max lo (min hi x)

/-- Translation of the Celsius-to-Kelvin helper C2K (part_001 line 49). -/
def C2K (tC : ℝ) : ℝ := tC + 273.15

/-- Convection model selector (source type ModelType = 'ieee' | 'cigre'). -/
inductive ModelType : Type
  | ieee : ModelType
  | cigre : ModelType

/-- Translation of effectiveWindSpeed (part_001 lines 55-58): blend mean
wind and gust wind into one effective wind speed. -/
def effectiveWindSpeed (vMean vGust : ℝ) : ℝ :=
  if vGust ≤ vMean then vMean else vMean + 0.35 * (vGust - vMean)

/-- Translation of resistancePerM (part_001 lines 61-63). -/
def resistancePerM (tc : ℝ) : ℝ := R20_PER_M * (1 + ALPHA_R * (tc - 20))

/-- Translation of qJoule (part_001 lines 66-69). -/
def qJoule (I tc : ℝ) : ℝ := I * I * resistancePerM tc

/-- Translation of qSolar (part_001 lines 70-72). -/
def qSolar (ghi : ℝ) : ℝ := ALPHA_SOLAR * ghi * DIAM

/-- Translation of qRadiative (part_001 lines 73-77). -/
def qRadiative (ta tc : ℝ) : ℝ :=
  EPS * SIGMA * (C2K tc ^ 4 - C2K ta ^ 4) * PERIM

/-- Translation of hConvectiveIEEE (part_001 lines 80-82). -/
def hConvectiveIEEE (vEff : ℝ) : ℝ := 5 + 8 * Real.sqrt (max 0 vEff + 0.1)

/-- Translation of qConvectiveIEEE (part_001 lines 83-86). -/
def qConvectiveIEEE (vEff ta tc : ℝ) : ℝ :=
  hConvectiveIEEE vEff * (tc - ta) * PERIM

/-- Natural-convection coefficient of the split model (source CIGRE_CN = 3.6). -/
def CIGRE_CN : ℝ := 3.6

/-- Forced-convection coefficient of the split model (source CIGRE_CF = 7.2). -/
def CIGRE_CF : ℝ := 7.2

/-- Wind exponent of the split model (source CIGRE_M = 0.52). -/
def CIGRE_M : ℝ := 0.52

/-- Temperature-delta exponent of the split model (source CIGRE_N = 1.25). -/
def CIGRE_N : ℝ := 1.25

/-- Translation of qConvectiveCIGRE (part_001 lines 99-105): natural plus
forced convection with the temperature delta and the wind floored at zero
before exponentiation. -/
def qConvectiveCIGRE (vEff ta tc : ℝ) : ℝ :=
  CIGRE_CN * max 0 (tc - ta) ^ CIGRE_N * DIAM ^ (0.75 : ℝ) +
    CIGRE_CF * max 0 vEff ^ CIGRE_M * max 0 (tc - ta) ^ CIGRE_N * DIAM ^ (0.75 : ℝ)

/-- Residual of the heat balance inside the equilibrium solver
(part_001 lines 113-116): inflow (Joule + solar) minus outflow
(convective, model dependent, + radiative) at conductor temperature tc. -/
def tcResid (ta vEff ghi I : ℝ) (model : ModelType) (tc : ℝ) : ℝ :=
  qJoule I tc + qSolar ghi -
    ((match model with
      | ModelType.ieee => qConvectiveIEEE vEff ta tc
      | ModelType.cigre => qConvectiveCIGRE vEff ta tc) + qRadiative ta tc)

/-- Damping slope dQdT of the equilibrium solver (part_001 lines 119-120):
an analytic slope for the IEEE variant, a 0.5-degree finite-difference
probe for the CIGRE variant, floored at 1e-6. -/
def tcSlope (ta vEff : ℝ) (model : ModelType) (tc : ℝ) : ℝ :=
  max 1e-6
    ((match model with
      | ModelType.ieee => hConvectiveIEEE vEff
      | ModelType.cigre =>
        (qConvectiveCIGRE vEff ta (tc + 0.5) - qConvectiveCIGRE vEff ta tc) / 0.5 / PERIM) * PERIM
      + 4 * EPS * SIGMA * C2K tc ^ 3 * PERIM)

/-- Update step of the equilibrium solver (part_001 line 121): step = resid / dQdT. -/
def tcStep (ta vEff ghi I : ℝ) (model : ModelType) (tc : ℝ) : ℝ :=
  tcResid ta vEff ghi I model tc / tcSlope ta vEff model tc

/-- Clamped temperature update of the equilibrium solver (part_001 line 122):
Tc := clamp(Tc + step, Ta + TC_MIN_DELTA, TC_MAX). -/
def tcUpdate (ta vEff ghi I : ℝ) (model : ModelType) (tc : ℝ) : ℝ :=
  clamp (tc + tcStep ta vEff ghi I model tc) (ta + TC_MIN_DELTA) TC_MAX

/-- Fuelled iteration loop of the equilibrium solver (part_001 lines
112-124): perform up to fuel clamped updates, stopping early once the
magnitude of the step falls below 0.02. -/
def tcLoop (ta vEff ghi I : ℝ) (model : ModelType) : ℕ → ℝ → ℝ
  | 0, tc => tc
  | k + 1, tc =>
    if |tcStep ta vEff ghi I model tc| < 0.02 then tcUpdate ta vEff ghi I model tc
    else tcLoop ta vEff ghi I model k (tcUpdate ta vEff ghi I model tc)

/-- Translation of solveConductorTemp (part_001 lines 110-126): start from
clamp(Ta + 10, Ta + TC_MIN_DELTA, TC_MAX) and run at most 60 damped updates. -/
def solveConductorTemp (ta vEff ghi I : ℝ) (model : ModelType) : ℝ :=
  tcLoop ta vEff ghi I model 60 (clamp (ta + 10) (ta + TC_MIN_DELTA) TC_MAX)

/-- Translation of estimateConductorTemp (part_001 lines 128-130). -/
def estimateConductorTemp (ta ghi vEff I : ℝ) (model : ModelType) : ℝ :=
  solveConductorTemp ta vEff ghi I model

/-- Upper-bracket growth loop of the ampacity solver (part_001 lines
139-144): while the temperature at the current bracket stays below TC_MAX,
multiply the bracket by 1.5, up to 10 times. -/
def ampGrow (ta ghi vEff : ℝ) (model : ModelType) : ℕ → ℝ → ℝ
  | 0, hi => hi
  | g + 1, hi =>
    if estimateConductorTemp ta ghi vEff hi model < TC_MAX then
      ampGrow ta ghi vEff model g (1.5 * hi)
    else hi

/-- Bisection loop of the ampacity solver (part_001 lines 145-151):
evaluate the midpoint, shrink the bracket, and return the midpoint once its
temperature is within 0.05 of TC_MAX or the updated bracket is narrower
than 0.5; after the budget is spent return the bracket midpoint. -/
def ampBisect (ta ghi vEff : ℝ) (model : ModelType) : ℕ → ℝ → ℝ → ℝ
  | 0, lo, hi => 0.5 * (lo + hi)
  | k + 1, lo, hi =>
    let mid := 0.5 * (lo + hi)
    let tcm := estimateConductorTemp ta ghi vEff mid model
    let lo2 := if tcm > TC_MAX then lo else mid
    let hi2 := if tcm > TC_MAX then mid else hi
    if |tcm - TC_MAX| < 0.05 ∨ hi2 - lo2 < 0.5 then mid
    else ampBisect ta ghi vEff model k lo2 hi2

/-- Translation of solveAmpacity (part_001 lines 133-152): return 0 when
the zero-current temperature is already within 0.05 of the limit,
otherwise grow the upper bracket starting from 4000 and bisect for at most
40 iterations. -/
def solveAmpacity (ta ghi vEff : ℝ) (model : ModelType) : ℝ :=
  if estimateConductorTemp ta ghi vEff 0 model ≥ TC_MAX - 0.05 then 0
  else ampBisect ta ghi vEff model 40 0 (ampGrow ta ghi vEff model 10 4000)

/-- Translation of staticAmpacityRef (part_001 lines 154-156). -/
def staticAmpacityRef (model : ModelType) : ℝ :=
  solveAmpacity T_STATIC_REF GHI_REF V_REF model

/-- Record returned by the risk classifier (source object literals in
assessRisk, part_001 lines 159-170). -/
structure RiskResult where
  level : String
  color : String
  bg : String

/-- Translation of assessRisk (part_001 lines 159-170): ordered rule
evaluation, first match wins. -/
def assessRisk (ta vEff tc I Imax : ℝ) : RiskResult :=
  if I ≥ 0.98 * Imax ∨ tc ≥ 78 then ⟨"Kritisch", "text-red-600", "bg-red-100"⟩
  else if (ta > 30 ∧ vEff < 2) ∨ (tc > 60 ∧ vEff < 2) ∨ I ≥ 0.9 * Imax then
    ⟨"Erhöht", "text-orange-600", "bg-orange-100"⟩
  else if ta < 5 ∧ vEff > 3 ∧ I ≤ 0.7 * Imax then
    ⟨"Optimal", "text-green-600", "bg-green-100"⟩
  else ⟨"Normal", "text-blue-600", "bg-blue-100"⟩

/-- Translation of the dlrPercent computation (part_001 line 203):
clamp((Imax / max(1e-6, I_static)) * 100, 0, 300). -/
def dlrPercent (imax iStatic : ℝ) : ℝ :=
  clamp (imax / max 1e-6 iStatic * 100) 0 300

/-- Rating percentage of an ambient state: dlrPercent applied to the
ampacity under the state and the static reference ampacity, as composed at
part_001 lines 199-203. -/
def ratingPercent (ta ghi vEff : ℝ) (model : ModelType) : ℝ :=
  dlrPercent (solveAmpacity ta ghi vEff model) (staticAmpacityRef model)

/-- Enumerated risk level of the specification (spec section 4.7). -/
inductive RiskLevel : Type
  | critical : RiskLevel
  | elevated : RiskLevel
  | optimal : RiskLevel
  | normal : RiskLevel

/-- Modelled from the spec wording of claim C7, for the refinement
comparison only: ordered rule table, first match wins (Critical, then
Elevated, then Optimal, then Normal). -/
def assessRiskSpec (ta vEff tc I Imax : ℝ) : RiskLevel :=
  if I ≥ 0.98 * Imax ∨ tc ≥ 78 then RiskLevel.critical
  else if (ta > 30 ∧ vEff < 2) ∨ (tc > 60 ∧ vEff < 2) ∨ I ≥ 0.9 * Imax then RiskLevel.elevated
  else if ta < 5 ∧ vEff > 3 ∧ I ≤ 0.7 * Imax then RiskLevel.optimal
  else RiskLevel.normal

/-- Rendering of a specification risk level as the record literal the
source returns for it. -/
def riskRender : RiskLevel → RiskResult
  | RiskLevel.critical => ⟨"Kritisch", "text-red-600", "bg-red-100"⟩
  | RiskLevel.elevated => ⟨"Erhöht", "text-orange-600", "bg-orange-100"⟩
  | RiskLevel.optimal => ⟨"Optimal", "text-green-600", "bg-green-100"⟩
  | RiskLevel.normal => ⟨"Normal", "text-blue-600", "bg-blue-100"⟩

/-- Instrumented copy of ampBisect that additionally records whether the
returned midpoint passed the temperature-tolerance test
|tc_mid - TC_MAX| < 0.05; its first component coincides with ampBisect. -/
def ampBisectE (ta ghi vEff : ℝ) (model : ModelType) : ℕ → ℝ → ℝ → ℝ × Bool
  | 0, lo, hi => (0.5 * (lo + hi), false)
  | k + 1, lo, hi =>
    let mid := 0.5 * (lo + hi)
    let tcm := estimateConductorTemp ta ghi vEff mid model
    let lo2 := if tcm > TC_MAX then lo else mid
    let hi2 := if tcm > TC_MAX then mid else hi
    if |tcm - TC_MAX| < 0.05 ∨ hi2 - lo2 < 0.5 then
      (mid, if |tcm - TC_MAX| < 0.05 then true else false)
    else ampBisectE ta ghi vEff model k lo2 hi2

/-- Instrumented copy of solveAmpacity recording whether the search
terminated through a temperature-tolerance test (the zero-current guard or
the tolerance exit of the bisection); its first component coincides with
solveAmpacity. -/
def solveAmpacityE (ta ghi vEff : ℝ) (model : ModelType) : ℝ × Bool :=
  if estimateConductorTemp ta ghi vEff 0 model ≥ TC_MAX - 0.05 then (0, true)
  else ampBisectE ta ghi vEff model 40 0 (ampGrow ta ghi vEff model 10 4000)

end

/-! Basic facts about the clamp helper and the constants. -/

lemma le_clamp (x lo hi : ℝ) : lo ≤ clamp x lo hi := le_max_left _ _

lemma clamp_le (x lo hi : ℝ) (h : lo ≤ hi) : clamp x lo hi ≤ hi :=
  max_le h (min_le_left _ _)

lemma clamp_of_hi_le_lo (x lo hi : ℝ) (h : hi ≤ lo) : clamp x lo hi = lo :=
  max_eq_left ((min_le_left _ _).trans h)

lemma clamp_le_of_le {x B : ℝ} (lo hi : ℝ) (hx : x ≤ B) (hlo : lo ≤ B) :
    clamp x lo hi ≤ B :=
  max_le hlo ((min_le_right _ _).trans hx)

lemma clamp_mono {x y : ℝ} (lo hi : ℝ) (h : x ≤ y) :
    clamp x lo hi ≤ clamp y lo hi :=
  max_le_max le_rfl (min_le_min le_rfl h)

lemma clamp_eq_of_mem {x lo hi : ℝ} (hlo : lo ≤ x) (hhi : x ≤ hi) :
    clamp x lo hi = x := by
  unfold clamp
  rw [min_eq_right hhi, max_eq_right hlo]

lemma PERIM_pos : 0 < PERIM := by
  unfold PERIM DIAM
  nlinarith [Real.pi_gt_d2]

lemma PERIM_lb : (0.0879 : ℝ) ≤ PERIM := by
  unfold PERIM DIAM
  nlinarith [Real.pi_gt_d2]

lemma PERIM_ub : PERIM ≤ (0.0882 : ℝ) := by
  unfold PERIM DIAM
  nlinarith [Real.pi_lt_d2]

lemma tcSlope_pos (ta vEff : ℝ) (model : ModelType) (tc : ℝ) :
    0 < tcSlope ta vEff model tc := by
  unfold tcSlope
  exact lt_of_lt_of_le (by norm_num) (le_max_left _ _)

lemma hConvectiveIEEE_ge (vEff : ℝ) : 5 ≤ hConvectiveIEEE vEff := by
  unfold hConvectiveIEEE
  nlinarith [Real.sqrt_nonneg (max 0 vEff + 0.1)]

lemma qConvectiveCIGRE_nonneg (vEff ta tc : ℝ) : 0 ≤ qConvectiveCIGRE vEff ta tc := by
  unfold qConvectiveCIGRE CIGRE_CN CIGRE_CF
  have h1 : (0:ℝ) ≤ max 0 (tc - ta) ^ CIGRE_N := Real.rpow_nonneg (le_max_left _ _) _
  have h2 : (0:ℝ) ≤ max 0 vEff ^ CIGRE_M := Real.rpow_nonneg (le_max_left _ _) _
  have h3 : (0:ℝ) ≤ DIAM ^ (0.75:ℝ) := Real.rpow_nonneg (by unfold DIAM; norm_num) _
  positivity

lemma qConvectiveIEEE_neg {vEff ta tc : ℝ} (h : tc < ta) : qConvectiveIEEE vEff ta tc < 0 := by
  unfold qConvectiveIEEE
  have h1 : (0:ℝ) < hConvectiveIEEE vEff := lt_of_lt_of_le (by norm_num) (hConvectiveIEEE_ge vEff)
  exact mul_neg_of_neg_of_pos (mul_neg_of_pos_of_neg h1 (by linarith)) PERIM_pos

/-! Structural facts about the equilibrium solver loop. -/

lemma tcLoop_fix {ta vEff ghi I : ℝ} {model : ModelType} {t0 : ℝ}
    (hfix : tcUpdate ta vEff ghi I model t0 = t0) :
    ∀ k, tcLoop ta vEff ghi I model k t0 = t0 := by
  intro k
  induction k with
  | zero => rfl
  | succ k ih =>
    simp only [tcLoop, hfix]
    split_ifs <;> [rfl; exact ih]

lemma tcUpdate_degenerate {ta vEff ghi I : ℝ} {model : ModelType} (tc : ℝ)
    (h : TC_MAX ≤ ta + TC_MIN_DELTA) :
    tcUpdate ta vEff ghi I model tc = ta + TC_MIN_DELTA :=
  clamp_of_hi_le_lo _ _ _ h

lemma tcLoop_degenerate {ta vEff ghi I : ℝ} {model : ModelType}
    (h : TC_MAX ≤ ta + TC_MIN_DELTA) :
    ∀ k tc, 1 ≤ k → tcLoop ta vEff ghi I model k tc = ta + TC_MIN_DELTA := by
  intro k tc hk
  match k, hk with
  | k + 1, _ =>
    simp only [tcLoop, tcUpdate_degenerate _ h]
    split_ifs with hs
    · rfl
    · exact tcLoop_fix (tcUpdate_degenerate _ h) k

lemma solveConductorTemp_degenerate {ta vEff ghi I : ℝ} {model : ModelType}
    (h : (85:ℝ) ≤ ta) :
    solveConductorTemp ta vEff ghi I model = ta - 5 := by
  unfold solveConductorTemp
  rw [tcLoop_degenerate (by unfold TC_MAX TC_MIN_DELTA; linarith) 60 _ (by norm_num)]
  unfold TC_MIN_DELTA
  ring

lemma tcLoop_bounds {ta vEff ghi I : ℝ} {model : ModelType}
    (hlohi : ta + TC_MIN_DELTA ≤ TC_MAX) :
    ∀ k tc, ta + TC_MIN_DELTA ≤ tc → tc ≤ TC_MAX →
      ta + TC_MIN_DELTA ≤ tcLoop ta vEff ghi I model k tc ∧
        tcLoop ta vEff ghi I model k tc ≤ TC_MAX := by
  intro k
  induction k with
  | zero => exact fun tc h1 h2 => ⟨h1, h2⟩
  | succ k ih =>
    intro tc h1 h2
    have hu1 : ta + TC_MIN_DELTA ≤ tcUpdate ta vEff ghi I model tc := le_clamp _ _ _
    have hu2 : tcUpdate ta vEff ghi I model tc ≤ TC_MAX := clamp_le _ _ _ hlohi
    simp only [tcLoop]
    split_ifs with hs
    · exact ⟨hu1, hu2⟩
    · exact ih _ hu1 hu2

lemma solveConductorTemp_mem (ta vEff ghi I : ℝ) (model : ModelType)
    (hta : ta ≤ 85) :
    ta + TC_MIN_DELTA ≤ solveConductorTemp ta vEff ghi I model ∧
      solveConductorTemp ta vEff ghi I model ≤ TC_MAX := by
  have hlohi : ta + TC_MIN_DELTA ≤ TC_MAX := by unfold TC_MAX TC_MIN_DELTA; linarith
  unfold solveConductorTemp
  exact tcLoop_bounds hlohi 60 _ (le_clamp _ _ _) (clamp_le _ _ _ hlohi)

lemma tcLoop_succ (ta vEff ghi I : ℝ) (model : ModelType) (k : ℕ) (tc : ℝ) :
    tcLoop ta vEff ghi I model (k + 1) tc =
      if |tcStep ta vEff ghi I model tc| < 0.02 then tcUpdate ta vEff ghi I model tc
      else tcLoop ta vEff ghi I model k (tcUpdate ta vEff ghi I model tc) := rfl

/-! Numeric bounds used by the counterexample runs of the equilibrium
solver at air temperature -300, wind 0, irradiance 1e9, IEEE-like model. -/

lemma sqrt_tenth_le : Real.sqrt 0.1 ≤ 0.32 := by
  calc Real.sqrt 0.1 ≤ Real.sqrt (0.32 ^ 2) := Real.sqrt_le_sqrt (by norm_num)
    _ = 0.32 := Real.sqrt_sq (by norm_num)

lemma hIEEE_zero_le : hConvectiveIEEE 0 ≤ 7.56 := by
  unfold hConvectiveIEEE
  have h : max (0:ℝ) 0 + 0.1 = 0.1 := by norm_num
  rw [h]
  linarith [sqrt_tenth_le]

lemma hIEEE_zero_mul_PERIM_le : hConvectiveIEEE 0 * PERIM ≤ 0.667 := by
  have h5 := hConvectiveIEEE_ge 0
  nlinarith [hIEEE_zero_le, PERIM_ub, PERIM_pos]

lemma hIEEE_zero_mul_PERIM_nonneg : 0 ≤ hConvectiveIEEE 0 * PERIM := by
  have h5 := hConvectiveIEEE_ge 0
  nlinarith [PERIM_pos]

lemma cex_slope_le_one : tcSlope (-300) 0 ModelType.ieee (-290) ≤ 1 := by
  unfold tcSlope
  dsimp only
  apply max_le (by norm_num)
  unfold C2K EPS SIGMA
  nlinarith [hIEEE_zero_mul_PERIM_le, PERIM_pos, PERIM_ub]

lemma cex_resid_init_pos : (13000000:ℝ) ≤ tcResid (-300) 0 1000000000 0 ModelType.ieee (-290) := by
  unfold tcResid qJoule qSolar qRadiative qConvectiveIEEE resistancePerM C2K
  unfold ALPHA_SOLAR DIAM EPS SIGMA R20_PER_M ALPHA_R
  dsimp only
  nlinarith [hIEEE_zero_mul_PERIM_le, hIEEE_zero_mul_PERIM_nonneg, PERIM_ub, PERIM_lb, PERIM_pos]

lemma cex_step_init_big : (370:ℝ) ≤ tcStep (-300) 0 1000000000 0 ModelType.ieee (-290) := by
  unfold tcStep
  rw [le_div_iff (tcSlope_pos _ _ _ _)]
  nlinarith [cex_resid_init_pos, cex_slope_le_one,
    (tcSlope_pos (-300) 0 ModelType.ieee (-290)).le]

lemma cex_upd_init_hi : tcUpdate (-300) 0 1000000000 0 ModelType.ieee (-290) = 80 := by
  unfold tcUpdate TC_MIN_DELTA TC_MAX clamp
  rw [min_eq_left (by linarith [cex_step_init_big])]
  exact max_eq_right (by norm_num)

lemma cex_resid_hi_nonneg : 0 ≤ tcResid (-300) 0 1000000000 0 ModelType.ieee 80 := by
  unfold tcResid qJoule qSolar qRadiative qConvectiveIEEE resistancePerM C2K
  unfold ALPHA_SOLAR DIAM EPS SIGMA R20_PER_M ALPHA_R
  dsimp only
  nlinarith [hIEEE_zero_mul_PERIM_le, hIEEE_zero_mul_PERIM_nonneg, PERIM_ub, PERIM_lb, PERIM_pos]

lemma cex_upd_hi : tcUpdate (-300) 0 1000000000 0 ModelType.ieee 80 = 80 := by
  have hs : 0 ≤ tcStep (-300) 0 1000000000 0 ModelType.ieee 80 :=
    div_nonneg cex_resid_hi_nonneg (tcSlope_pos _ _ _ _).le
  unfold tcUpdate TC_MIN_DELTA TC_MAX clamp
  rw [min_eq_left (by linarith)]
  exact max_eq_right (by norm_num)

lemma cex_run1 : solveConductorTemp (-300) 0 1000000000 0 ModelType.ieee = 80 := by
  unfold solveConductorTemp
  have hinit : clamp ((-300:ℝ) + 10) (-300 + TC_MIN_DELTA) TC_MAX = -290 := by
    rw [clamp_eq_of_mem (by unfold TC_MIN_DELTA; norm_num) (by unfold TC_MAX; norm_num)]
    norm_num
  rw [hinit, show (60:ℕ) = 59 + 1 from rfl, tcLoop_succ, cex_upd_init_hi]
  split_ifs
  · rfl
  · exact tcLoop_fix cex_upd_hi 59

lemma cex2_resid_init_neg :
    tcResid (-300) 0 1000000000 100000000 ModelType.ieee (-290) ≤ -60000000000 := by
  unfold tcResid qJoule qSolar qRadiative qConvectiveIEEE resistancePerM C2K
  unfold ALPHA_SOLAR DIAM EPS SIGMA R20_PER_M ALPHA_R
  dsimp only
  nlinarith [hIEEE_zero_mul_PERIM_le, hIEEE_zero_mul_PERIM_nonneg, PERIM_ub, PERIM_lb, PERIM_pos]

lemma cex2_step_init_neg : tcStep (-300) 0 1000000000 100000000 ModelType.ieee (-290) ≤ -15 := by
  unfold tcStep
  rw [div_le_iff (tcSlope_pos _ _ _ _)]
  nlinarith [cex2_resid_init_neg, cex_slope_le_one,
    (tcSlope_pos (-300) 0 ModelType.ieee (-290)).le]

lemma cex2_upd_init_lo : tcUpdate (-300) 0 1000000000 100000000 ModelType.ieee (-290) = -305 := by
  have hstep := cex2_step_init_neg
  unfold tcUpdate TC_MIN_DELTA TC_MAX clamp
  have h1 : (-290:ℝ) + tcStep (-300) 0 1000000000 100000000 ModelType.ieee (-290) ≤ 80 := by
    linarith
  have h2 : (-290:ℝ) + tcStep (-300) 0 1000000000 100000000 ModelType.ieee (-290) ≤ -300 + -5 := by
    linarith
  rw [min_eq_right h1, max_eq_left h2]
  norm_num

lemma cex2_resid_lo_nonpos :
    tcResid (-300) 0 1000000000 100000000 ModelType.ieee (-305) ≤ 0 := by
  unfold tcResid qJoule qSolar qRadiative qConvectiveIEEE resistancePerM C2K
  unfold ALPHA_SOLAR DIAM EPS SIGMA R20_PER_M ALPHA_R
  dsimp only
  nlinarith [hIEEE_zero_mul_PERIM_le, hIEEE_zero_mul_PERIM_nonneg, PERIM_ub, PERIM_lb, PERIM_pos]

lemma cex2_upd_lo : tcUpdate (-300) 0 1000000000 100000000 ModelType.ieee (-305) = -305 := by
  have hs : tcStep (-300) 0 1000000000 100000000 ModelType.ieee (-305) ≤ 0 :=
    div_nonpos_of_nonpos_of_nonneg cex2_resid_lo_nonpos (tcSlope_pos _ _ _ _).le
  unfold tcUpdate TC_MIN_DELTA TC_MAX clamp
  have h1 : (-305:ℝ) + tcStep (-300) 0 1000000000 100000000 ModelType.ieee (-305) ≤ 80 := by
    linarith
  have h2 : (-305:ℝ) + tcStep (-300) 0 1000000000 100000000 ModelType.ieee (-305) ≤ -300 + -5 := by
    linarith
  rw [min_eq_right h1, max_eq_left h2]
  norm_num

lemma cex_run2 : solveConductorTemp (-300) 0 1000000000 100000000 ModelType.ieee = -305 := by
  unfold solveConductorTemp
  have hinit : clamp ((-300:ℝ) + 10) (-300 + TC_MIN_DELTA) TC_MAX = -290 := by
    rw [clamp_eq_of_mem (by unfold TC_MIN_DELTA; norm_num) (by unfold TC_MAX; norm_num)]
    norm_num
  have hlo : ((-300:ℝ) + TC_MIN_DELTA) = -305 := by unfold TC_MIN_DELTA; norm_num
  rw [hinit, show (60:ℕ) = 59 + 1 from rfl, tcLoop_succ, cex2_upd_init_lo]
  split_ifs
  · rfl
  · exact tcLoop_fix cex2_upd_lo 59

/-! Numeric bounds for the static reference case (air temperature 35,
wind 0.6, irradiance 800, current 0), used to show that the reference
ampacity is bounded away from zero. -/

lemma sqrt_sevenTenths_lb : (0.83:ℝ) ≤ Real.sqrt 0.7 := by
  calc (0.83:ℝ) = Real.sqrt (0.83 ^ 2) := (Real.sqrt_sq (by norm_num)).symm
    _ ≤ Real.sqrt 0.7 := Real.sqrt_le_sqrt (by norm_num)

lemma sqrt_sevenTenths_ub : Real.sqrt 0.7 ≤ 0.84 := by
  calc Real.sqrt 0.7 ≤ Real.sqrt (0.84 ^ 2) := Real.sqrt_le_sqrt (by norm_num)
    _ = 0.84 := Real.sqrt_sq (by norm_num)

lemma hIEEE06_bounds : 11.64 ≤ hConvectiveIEEE 0.6 ∧ hConvectiveIEEE 0.6 ≤ 11.72 := by
  unfold hConvectiveIEEE
  have h : max (0:ℝ) 0.6 + 0.1 = 0.7 := by
    rw [max_eq_right (by norm_num)]
    norm_num
  rw [h]
  constructor <;> nlinarith [sqrt_sevenTenths_lb, sqrt_sevenTenths_ub]

lemma hP06_lb : (1.02:ℝ) ≤ hConvectiveIEEE 0.6 * PERIM := by
  nlinarith [hIEEE06_bounds.1, hIEEE06_bounds.2, PERIM_lb, PERIM_pos]

lemma hP06_ub : hConvectiveIEEE 0.6 * PERIM ≤ 1.04 := by
  nlinarith [hIEEE06_bounds.1, hIEEE06_bounds.2, PERIM_ub, PERIM_pos]

lemma rad_lb35 (tc : ℝ) (h : 30 ≤ tc) : -2.3 ≤ qRadiative 35 tc := by
  unfold qRadiative EPS SIGMA C2K
  have h4 : (303.15:ℝ) ^ 4 ≤ (tc + 273.15) ^ 4 :=
    pow_le_pow_left (by norm_num) (by linarith) 4
  have p1 : 0 ≤ ((tc + 273.15) ^ 4 - (35 + 273.15) ^ 4 - ((303.15:ℝ) ^ 4 - (35 + 273.15) ^ 4))
      * PERIM := mul_nonneg (by linarith) PERIM_pos.le
  have p2 : 0 ≤ (-((303.15:ℝ) ^ 4 - (35 + 273.15) ^ 4)) * (0.0882 - PERIM) :=
    mul_nonneg (by norm_num) (by linarith [PERIM_ub])
  nlinarith [p1, p2]

lemma radslope_lb (tc : ℝ) (h : 30 ≤ tc) :
    (0.444:ℝ) ≤ 4 * EPS * SIGMA * C2K tc ^ 3 * PERIM := by
  unfold EPS SIGMA C2K
  have h3 : (303.15:ℝ) ^ 3 ≤ (tc + 273.15) ^ 3 :=
    pow_le_pow_left (by norm_num) (by linarith) 3
  have p1 : 0 ≤ ((tc + 273.15) ^ 3 - (303.15:ℝ) ^ 3) * PERIM :=
    mul_nonneg (by linarith) PERIM_pos.le
  have p2 : 0 ≤ ((303.15:ℝ) ^ 3) * (PERIM - 0.0879) :=
    mul_nonneg (by norm_num) (by linarith [PERIM_lb])
  nlinarith [p1, p2]

lemma D_ieee_lb (tc : ℝ) (h : 30 ≤ tc) : (1.02:ℝ) ≤ tcSlope 35 0.6 ModelType.ieee tc := by
  unfold tcSlope
  dsimp only
  refine le_trans ?_ (le_max_right _ _)
  have := radslope_lb tc h
  linarith [hP06_lb]

lemma ref_ieee_step (tc : ℝ) (h1 : 30 ≤ tc) (h2 : tc ≤ 68) :
    tc + tcStep 35 0.6 800 0 ModelType.ieee tc ≤ 68 := by
  have hD : 0 < tcSlope 35 0.6 ModelType.ieee tc := tcSlope_pos _ _ _ _
  by_cases hr : tcResid 35 0.6 800 0 ModelType.ieee tc ≤ 0
  · have hstep : tcStep 35 0.6 800 0 ModelType.ieee tc ≤ 0 :=
      div_nonpos_of_nonpos_of_nonneg hr hD.le
    linarith
  · push_neg at hr
    have hres_eq : tcResid 35 0.6 800 0 ModelType.ieee tc =
        11.2 - hConvectiveIEEE 0.6 * (tc - 35) * PERIM - qRadiative 35 tc := by
      unfold tcResid qJoule qSolar qConvectiveIEEE resistancePerM
      unfold ALPHA_SOLAR DIAM R20_PER_M ALPHA_R
      dsimp only
      ring
    have hrad := rad_lb35 tc h1
    have hconv_lb : -5.2 ≤ hConvectiveIEEE 0.6 * (tc - 35) * PERIM := by
      have q1 : 0 ≤ hConvectiveIEEE 0.6 * PERIM * (tc - 35 + 5) :=
        mul_nonneg (by linarith [hP06_lb]) (by linarith)
      nlinarith [q1, hP06_ub, hP06_lb]
    have htc49 : tc ≤ 49 := by
      by_contra hgt
      push_neg at hgt
      rw [hres_eq] at hr
      have q2 : (1.02:ℝ) * 14 ≤ hConvectiveIEEE 0.6 * PERIM * (tc - 35) :=
        mul_le_mul hP06_lb (by linarith) (by norm_num) (le_trans (by norm_num) hP06_lb)
      nlinarith [q2, hrad]
    have hres_ub : tcResid 35 0.6 800 0 ModelType.ieee tc ≤ 18.7 := by
      rw [hres_eq]
      nlinarith [hconv_lb, hrad]
    have hD102 := D_ieee_lb tc h1
    have hstep_ub : tcStep 35 0.6 800 0 ModelType.ieee tc ≤ 18.4 := by
      unfold tcStep
      have ha : tcResid 35 0.6 800 0 ModelType.ieee tc / tcSlope 35 0.6 ModelType.ieee tc ≤
          tcResid 35 0.6 800 0 ModelType.ieee tc / 1.02 :=
        div_le_div_of_nonneg_left hr.le (by norm_num) hD102
      have hb : tcResid 35 0.6 800 0 ModelType.ieee tc / 1.02 ≤ 18.7 / 1.02 :=
        div_le_div_of_nonneg_right hres_ub (by norm_num)
      have hc : (18.7:ℝ) / 1.02 ≤ 18.4 := by norm_num
      linarith
    linarith

lemma s052_lb : (0.76:ℝ) ≤ (0.6:ℝ) ^ (0.52:ℝ) := by
  have h6 : (0:ℝ) ≤ 0.6 := by norm_num
  have hs : ((0.6:ℝ) ^ (0.52:ℝ)) ^ (25:ℕ) = (0.6:ℝ) ^ (13:ℕ) := by
    rw [← Real.rpow_natCast ((0.6:ℝ) ^ (0.52:ℝ)) 25, ← Real.rpow_mul h6]
    norm_num
  have h : (0.76:ℝ) ^ (25:ℕ) ≤ ((0.6:ℝ) ^ (0.52:ℝ)) ^ (25:ℕ) := by
    rw [hs]; norm_num
  exact le_of_pow_le_pow_left (by norm_num) (Real.rpow_nonneg h6 _) h

lemma t075_lb : (0.0684:ℝ) ≤ (0.028:ℝ) ^ (0.75:ℝ) := by
  have h6 : (0:ℝ) ≤ 0.028 := by norm_num
  have hs : ((0.028:ℝ) ^ (0.75:ℝ)) ^ (4:ℕ) = (0.028:ℝ) ^ (3:ℕ) := by
    rw [← Real.rpow_natCast ((0.028:ℝ) ^ (0.75:ℝ)) 4, ← Real.rpow_mul h6]
    norm_num
  have h : (0.0684:ℝ) ^ (4:ℕ) ≤ ((0.028:ℝ) ^ (0.75:ℝ)) ^ (4:ℕ) := by
    rw [hs]; norm_num
  exact le_of_pow_le_pow_left (by norm_num) (Real.rpow_nonneg h6 _) h

lemma rpow12_lb : (22:ℝ) ≤ (12:ℝ) ^ (1.25:ℝ) := by
  have h6 : (0:ℝ) ≤ 12 := by norm_num
  have hs : ((12:ℝ) ^ (1.25:ℝ)) ^ (4:ℕ) = (12:ℝ) ^ (5:ℕ) := by
    rw [← Real.rpow_natCast ((12:ℝ) ^ (1.25:ℝ)) 4, ← Real.rpow_mul h6]
    norm_num
  have h : (22:ℝ) ^ (4:ℕ) ≤ ((12:ℝ) ^ (1.25:ℝ)) ^ (4:ℕ) := by
    rw [hs]; norm_num
  exact le_of_pow_le_pow_left (by norm_num) (Real.rpow_nonneg h6 _) h

lemma cigre_conv_mono (tc : ℝ) :
    qConvectiveCIGRE 0.6 35 tc ≤ qConvectiveCIGRE 0.6 35 (tc + 0.5) := by
  have hA_le : max 0 (tc - 35) ^ CIGRE_N ≤ max 0 (tc + 0.5 - 35) ^ CIGRE_N :=
    Real.rpow_le_rpow (le_max_left _ _) (max_le_max le_rfl (by linarith))
      (by unfold CIGRE_N; norm_num)
  have ht_nonneg : (0:ℝ) ≤ DIAM ^ (0.75:ℝ) :=
    Real.rpow_nonneg (by unfold DIAM; norm_num) _
  have hs_nonneg : (0:ℝ) ≤ max 0 (0.6:ℝ) ^ CIGRE_M := Real.rpow_nonneg (le_max_left _ _) _
  have p1 : 0 ≤ (max 0 (tc + 0.5 - 35) ^ CIGRE_N - max 0 (tc - 35) ^ CIGRE_N)
      * DIAM ^ (0.75:ℝ) := mul_nonneg (by linarith) ht_nonneg
  have p2 : 0 ≤ max 0 (0.6:ℝ) ^ CIGRE_M *
      ((max 0 (tc + 0.5 - 35) ^ CIGRE_N - max 0 (tc - 35) ^ CIGRE_N) * DIAM ^ (0.75:ℝ)) :=
    mul_nonneg hs_nonneg p1
  unfold qConvectiveCIGRE CIGRE_CN CIGRE_CF
  nlinarith [p1, p2]

lemma D_cigre_lb (tc : ℝ) (h : 30 ≤ tc) : (0.444:ℝ) ≤ tcSlope 35 0.6 ModelType.cigre tc := by
  unfold tcSlope
  dsimp only
  refine le_trans ?_ (le_max_right _ _)
  have hfd : 0 ≤ (qConvectiveCIGRE 0.6 35 (tc + 0.5) - qConvectiveCIGRE 0.6 35 tc)
      / 0.5 / PERIM * PERIM := by
    have hd : 0 ≤ qConvectiveCIGRE 0.6 35 (tc + 0.5) - qConvectiveCIGRE 0.6 35 tc := by
      linarith [cigre_conv_mono tc]
    exact mul_nonneg (div_nonneg (div_nonneg hd (by norm_num)) PERIM_pos.le) PERIM_pos.le
  have := radslope_lb tc h
  linarith

lemma ref_cigre_step (tc : ℝ) (h1 : 30 ≤ tc) (h2 : tc ≤ 78) :
    tc + tcStep 35 0.6 800 0 ModelType.cigre tc ≤ 78 := by
  have hD : 0 < tcSlope 35 0.6 ModelType.cigre tc := tcSlope_pos _ _ _ _
  by_cases hr : tcResid 35 0.6 800 0 ModelType.cigre tc ≤ 0
  · have hstep : tcStep 35 0.6 800 0 ModelType.cigre tc ≤ 0 :=
      div_nonpos_of_nonpos_of_nonneg hr hD.le
    linarith
  · push_neg at hr
    have hres_eq : tcResid 35 0.6 800 0 ModelType.cigre tc =
        11.2 - qConvectiveCIGRE 0.6 35 tc - qRadiative 35 tc := by
      unfold tcResid qJoule qSolar resistancePerM
      unfold ALPHA_SOLAR DIAM R20_PER_M ALPHA_R
      dsimp only
      ring
    have hrad := rad_lb35 tc h1
    have htc47 : tc ≤ 47 := by
      by_contra hgt
      push_neg at hgt
      have hAmax : max (0:ℝ) (tc - 35) = tc - 35 := max_eq_right (by linarith)
      have hA22 : (22:ℝ) ≤ max 0 (tc - 35) ^ CIGRE_N := by
        rw [hAmax]
        calc (22:ℝ) ≤ (12:ℝ) ^ (1.25:ℝ) := rpow12_lb
          _ ≤ (tc - 35) ^ CIGRE_N := by
            unfold CIGRE_N
            exact Real.rpow_le_rpow (by norm_num) (by linarith) (by norm_num)
      have ht_lb : (0.0684:ℝ) ≤ DIAM ^ (0.75:ℝ) := by
        unfold DIAM
        exact t075_lb
      have hs_lb : (0.76:ℝ) ≤ max 0 (0.6:ℝ) ^ CIGRE_M := by
        rw [max_eq_right (by norm_num)]
        unfold CIGRE_M
        exact s052_lb
      have hs_nonneg : (0:ℝ) ≤ max 0 (0.6:ℝ) ^ CIGRE_M := le_trans (by norm_num) hs_lb
      have e1 : (22:ℝ) * 0.0684 ≤ max 0 (tc - 35) ^ CIGRE_N * (DIAM ^ (0.75:ℝ)) :=
        mul_le_mul hA22 ht_lb (by norm_num) (le_trans (by norm_num) hA22)
      have e2 : (0.76:ℝ) * (22 * 0.0684) ≤
          max 0 (0.6:ℝ) ^ CIGRE_M * (max 0 (tc - 35) ^ CIGRE_N * (DIAM ^ (0.75:ℝ))) :=
        mul_le_mul hs_lb e1 (by norm_num) hs_nonneg
      have hconv_lb : (13.65:ℝ) ≤ qConvectiveCIGRE 0.6 35 tc := by
        unfold qConvectiveCIGRE CIGRE_CN CIGRE_CF
        nlinarith [e1, e2]
      rw [hres_eq] at hr
      nlinarith [hconv_lb, hrad]
    have hres_ub : tcResid 35 0.6 800 0 ModelType.cigre tc ≤ 13.5 := by
      rw [hres_eq]
      nlinarith [qConvectiveCIGRE_nonneg 0.6 35 tc, hrad]
    have hD444 := D_cigre_lb tc h1
    have hstep_ub : tcStep 35 0.6 800 0 ModelType.cigre tc ≤ 30.5 := by
      unfold tcStep
      have ha : tcResid 35 0.6 800 0 ModelType.cigre tc / tcSlope 35 0.6 ModelType.cigre tc ≤
          tcResid 35 0.6 800 0 ModelType.cigre tc / 0.444 :=
        div_le_div_of_nonneg_left hr.le (by norm_num) hD444
      have hb : tcResid 35 0.6 800 0 ModelType.cigre tc / 0.444 ≤ 13.5 / 0.444 :=
        div_le_div_of_nonneg_right hres_ub (by norm_num)
      have hc : (13.5:ℝ) / 0.444 ≤ 30.5 := by norm_num
      linarith
    linarith

lemma tcLoop_le (ta vEff ghi I : ℝ) (model : ModelType) (B : ℝ)
    (hloB : ta + TC_MIN_DELTA ≤ B)
    (hstep : ∀ tc, ta + TC_MIN_DELTA ≤ tc → tc ≤ B → tc + tcStep ta vEff ghi I model tc ≤ B) :
    ∀ k tc, ta + TC_MIN_DELTA ≤ tc → tc ≤ B → tcLoop ta vEff ghi I model k tc ≤ B := by
  intro k
  induction k with
  | zero => exact fun tc h1 h2 => h2
  | succ k ih =>
    intro tc h1 h2
    have hu1 : ta + TC_MIN_DELTA ≤ tcUpdate ta vEff ghi I model tc := le_clamp _ _ _
    have hu2 : tcUpdate ta vEff ghi I model tc ≤ B :=
      clamp_le_of_le _ _ (hstep tc h1 h2) hloB
    rw [tcLoop_succ]
    split_ifs
    · exact hu2
    · exact ih _ hu1 hu2

lemma ref_tc0_le (model : ModelType) : solveConductorTemp 35 0.6 800 0 model ≤ 78 := by
  unfold solveConductorTemp
  have hinit : clamp ((35:ℝ) + 10) (35 + TC_MIN_DELTA) TC_MAX = 45 := by
    rw [clamp_eq_of_mem (by unfold TC_MIN_DELTA; norm_num) (by unfold TC_MAX; norm_num)]
    norm_num
  rw [hinit]
  cases model with
  | ieee =>
    have h := tcLoop_le 35 0.6 800 0 ModelType.ieee 68 (by unfold TC_MIN_DELTA; norm_num)
      (fun tc ht1 ht2 => ref_ieee_step tc (by unfold TC_MIN_DELTA at ht1; linarith) ht2)
      60 45 (by unfold TC_MIN_DELTA; norm_num) (by norm_num)
    linarith
  | cigre =>
    exact tcLoop_le 35 0.6 800 0 ModelType.cigre 78 (by unfold TC_MIN_DELTA; norm_num)
      (fun tc ht1 ht2 => ref_cigre_step tc (by unfold TC_MIN_DELTA at ht1; linarith) ht2)
      60 45 (by unfold TC_MIN_DELTA; norm_num) (by norm_num)

lemma ref_guard_false (model : ModelType) :
    ¬ estimateConductorTemp 35 800 0.6 0 model ≥ TC_MAX - 0.05 := by
  unfold estimateConductorTemp TC_MAX
  intro hge
  linarith [ref_tc0_le model]

/-! Structural facts about the ampacity solver. -/

lemma ampGrow_succ (ta ghi vEff : ℝ) (model : ModelType) (g : ℕ) (hi : ℝ) :
    ampGrow ta ghi vEff model (g + 1) hi =
      if estimateConductorTemp ta ghi vEff hi model < TC_MAX then
        ampGrow ta ghi vEff model g (1.5 * hi)
      else hi := rfl

lemma ampGrow_bounds (ta ghi vEff : ℝ) (model : ModelType) :
    ∀ g (hi : ℝ), 0 ≤ hi →
      hi ≤ ampGrow ta ghi vEff model g hi ∧ ampGrow ta ghi vEff model g hi ≤ hi * 1.5 ^ g := by
  intro g
  induction g with
  | zero =>
    intro hi h0
    have h00 : ampGrow ta ghi vEff model 0 hi = hi := rfl
    rw [h00]
    exact ⟨le_rfl, by nlinarith⟩
  | succ g ih =>
    intro hi h0
    rw [ampGrow_succ]
    split_ifs
    · have h15 : (0:ℝ) ≤ 1.5 * hi := by linarith
      obtain ⟨ha, hb⟩ := ih (1.5 * hi) h15
      refine ⟨by linarith, ?_⟩
      calc ampGrow ta ghi vEff model g (1.5 * hi) ≤ 1.5 * hi * 1.5 ^ g := hb
        _ = hi * 1.5 ^ (g + 1) := by ring
    · refine ⟨le_rfl, ?_⟩
      have hpow : (1:ℝ) ≤ 1.5 ^ (g + 1) := by
        calc (1:ℝ) = 1 ^ (g + 1) := (one_pow _).symm
          _ ≤ 1.5 ^ (g + 1) := pow_le_pow_left (by norm_num) (by norm_num) _
      nlinarith

lemma ampBisect_succ (ta ghi vEff : ℝ) (model : ModelType) (k : ℕ) (lo hi : ℝ) :
    ampBisect ta ghi vEff model (k + 1) lo hi =
      if |estimateConductorTemp ta ghi vEff (0.5 * (lo + hi)) model - TC_MAX| < 0.05 ∨
          (if estimateConductorTemp ta ghi vEff (0.5 * (lo + hi)) model > TC_MAX then
            0.5 * (lo + hi) else hi) -
          (if estimateConductorTemp ta ghi vEff (0.5 * (lo + hi)) model > TC_MAX then lo
            else 0.5 * (lo + hi)) < 0.5 then
        0.5 * (lo + hi)
      else
        ampBisect ta ghi vEff model k
          (if estimateConductorTemp ta ghi vEff (0.5 * (lo + hi)) model > TC_MAX then lo
            else 0.5 * (lo + hi))
          (if estimateConductorTemp ta ghi vEff (0.5 * (lo + hi)) model > TC_MAX then
            0.5 * (lo + hi) else hi) := rfl

lemma ampBisect_lb (ta ghi vEff : ℝ) (model : ModelType) :
    ∀ (n : ℕ) (fuel : ℕ) (lo hi : ℝ), n + 1 ≤ fuel → 0 ≤ lo → lo ≤ hi →
      hi - lo ≤ 0.5 * 2 ^ n →
      (hi - lo) / 2 ^ (n + 1) ≤ ampBisect ta ghi vEff model fuel lo hi := by
  intro n
  induction n with
  | zero =>
    intro fuel lo hi hfuel h0 hle hw
    match fuel, hfuel with
    | m + 1, _ =>
      rw [ampBisect_succ]
      have hwidth : (if estimateConductorTemp ta ghi vEff (0.5 * (lo + hi)) model > TC_MAX then
          0.5 * (lo + hi) else hi) -
          (if estimateConductorTemp ta ghi vEff (0.5 * (lo + hi)) model > TC_MAX then lo
            else 0.5 * (lo + hi)) < 0.5 := by
        by_cases hc : estimateConductorTemp ta ghi vEff (0.5 * (lo + hi)) model > TC_MAX
        · rw [if_pos hc, if_pos hc]
          norm_num at hw ⊢
          linarith
        · rw [if_neg hc, if_neg hc]
          norm_num at hw ⊢
          linarith
      rw [if_pos (Or.inr hwidth)]
      have h2 : (2:ℝ) ^ (0 + 1) = 2 := by norm_num
      rw [h2]
      linarith
  | succ n ih =>
    intro fuel lo hi hfuel h0 hle hw
    match fuel, hfuel with
    | m + 1, hfuel =>
      have hm : n + 1 ≤ m := by omega
      have hpow : (2:ℝ) ≤ 2 ^ (n + 1 + 1) := by
        calc (2:ℝ) = 2 ^ 1 := (pow_one 2).symm
          _ ≤ 2 ^ (n + 1 + 1) := pow_le_pow_right (by norm_num) (by omega)
      have hd : (hi - lo) / 2 ^ (n + 1 + 1) ≤ (hi - lo) / 2 :=
        div_le_div_of_nonneg_left (by linarith) (by norm_num) hpow
      rw [ampBisect_succ]
      by_cases hc : estimateConductorTemp ta ghi vEff (0.5 * (lo + hi)) model > TC_MAX
      · simp only [if_pos hc]
        split_ifs with hexit
        · linarith
        · have happ := ih m lo (0.5 * (lo + hi)) hm h0 (by linarith) (by
            rw [pow_succ] at hw
            linarith)
          have heq : (0.5 * (lo + hi) - lo) / 2 ^ (n + 1) = (hi - lo) / 2 ^ (n + 1 + 1) := by
            rw [pow_succ]
            field_simp
            ring
          rw [heq] at happ
          exact happ
      · simp only [if_neg hc]
        split_ifs with hexit
        · linarith
        · have happ := ih m (0.5 * (lo + hi)) hi hm (by linarith) (by linarith) (by
            rw [pow_succ] at hw
            linarith)
          have heq : (hi - 0.5 * (lo + hi)) / 2 ^ (n + 1) = (hi - lo) / 2 ^ (n + 1 + 1) := by
            rw [pow_succ]
            field_simp
            ring
          rw [heq] at happ
          exact happ

lemma dlrPercent_self (A : ℝ) (h : 1e-6 ≤ A) : dlrPercent A A = 100 := by
  unfold dlrPercent
  rw [max_eq_right h, div_self (lt_of_lt_of_le (by norm_num) h).ne', one_mul]
  exact clamp_eq_of_mem (by norm_num) (by norm_num)

lemma ref_amp_lb (model : ModelType) : (0.003:ℝ) ≤ solveAmpacity 35 800 0.6 model := by
  obtain ⟨hg1, hg2⟩ := ampGrow_bounds 35 800 0.6 model 10 4000 (by norm_num)
  have hub : ampGrow 35 800 0.6 model 10 4000 ≤ 262144 := by
    have : (4000:ℝ) * 1.5 ^ 10 ≤ 262144 := by norm_num
    linarith
  unfold solveAmpacity
  rw [if_neg (ref_guard_false model)]
  have hlb := ampBisect_lb 35 800 0.6 model 19 40 0 (ampGrow 35 800 0.6 model 10 4000)
    (by norm_num) le_rfl (by linarith) (by norm_num; linarith)
  have hnum : (0.003:ℝ) ≤ (ampGrow 35 800 0.6 model 10 4000 - 0) / 2 ^ (19 + 1) := by
    rw [le_div_iff (by norm_num : (0:ℝ) < 2 ^ (19 + 1))]
    norm_num
    linarith
  linarith

/-- Claim C5: when the current ambient state equals the fixed reference
state (35 degrees, wind 0.6, irradiance 800) under the same convection
model, the rating percentage is exactly 100. -/
theorem claim_C5 (model : ModelType) :
    ratingPercent T_STATIC_REF GHI_REF V_REF model = 100 := by
  have hA := ref_amp_lb model
  unfold ratingPercent staticAmpacityRef
  unfold T_STATIC_REF GHI_REF V_REF
  exact dlrPercent_self _ (le_trans (by norm_num) hA)

lemma ampBisectE_fst (ta ghi vEff : ℝ) (model : ModelType) :
    ∀ k lo hi, (ampBisectE ta ghi vEff model k lo hi).1 = ampBisect ta ghi vEff model k lo hi := by
  intro k
  induction k with
  | zero => intro lo hi; rfl
  | succ k ih =>
    intro lo hi
    simp only [ampBisectE, ampBisect]
    split_ifs <;> first | rfl | apply ih

lemma ampBisectE_flag (ta ghi vEff : ℝ) (model : ModelType) :
    ∀ k lo hi, (ampBisectE ta ghi vEff model k lo hi).2 = true →
      |estimateConductorTemp ta ghi vEff (ampBisectE ta ghi vEff model k lo hi).1 model - TC_MAX|
        < 0.05 := by
  intro k
  induction k with
  | zero => intro lo hi h; exact absurd h (by simp [ampBisectE])
  | succ k ih =>
    intro lo hi h
    simp only [ampBisectE] at h ⊢
    by_cases htol : |estimateConductorTemp ta ghi vEff (0.5 * (lo + hi)) model - TC_MAX| < 0.05
    · rw [if_pos (Or.inl htol)]
      exact htol
    · by_cases hexit : |estimateConductorTemp ta ghi vEff (0.5 * (lo + hi)) model - TC_MAX| < 0.05 ∨
          (if estimateConductorTemp ta ghi vEff (0.5 * (lo + hi)) model > TC_MAX then 0.5 * (lo + hi)
            else hi) -
            (if estimateConductorTemp ta ghi vEff (0.5 * (lo + hi)) model > TC_MAX then lo
              else 0.5 * (lo + hi)) < 0.5
      · rw [if_pos hexit] at h
        simp [htol] at h
      · rw [if_neg hexit] at h ⊢
        exact ih _ _ h

lemma solveAmpacityE_fst (ta ghi vEff : ℝ) (model : ModelType) :
    (solveAmpacityE ta ghi vEff model).1 = solveAmpacity ta ghi vEff model := by
  unfold solveAmpacityE solveAmpacity
  split_ifs
  · rfl
  · exact ampBisectE_fst ta ghi vEff model 40 0 _

/-! Claim theorems for the leaf components. -/

/-- Claim C6: the wind blender returns the mean wind when the gust does not
exceed it, and otherwise adds 35 percent of the excess; in particular mean
wind 2 and gust 8 blend to exactly 4.1. -/
theorem claim_C6 (vMean vGust : ℝ) (hm : 0 ≤ vMean) (hg : 0 ≤ vGust) :
    ((vGust ≤ vMean → effectiveWindSpeed vMean vGust = vMean) ∧
      (vMean < vGust → effectiveWindSpeed vMean vGust = vMean + 0.35 * (vGust - vMean))) ∧
    effectiveWindSpeed 2 8 = 4.1 := by
  refine ⟨⟨fun h => ?_, fun h => ?_⟩, ?_⟩
  · unfold effectiveWindSpeed
    rw [if_pos h]
  · unfold effectiveWindSpeed
    rw [if_neg (not_le.mpr h)]
  · unfold effectiveWindSpeed
    rw [if_neg (by norm_num)]
    norm_num

/-- Witness for claim C6 at mean wind 2 and gust 8. -/
theorem claim_C6_witness :
    ((0:ℝ) ≤ 2 ∧ (0:ℝ) ≤ 8) ∧ effectiveWindSpeed 2 8 = 4.1 :=
  ⟨⟨by norm_num, by norm_num⟩, (claim_C6 2 8 (by norm_num) (by norm_num)).2⟩

/-- Claim C7: the risk classifier implements exactly the ordered,
first-match-wins rule table of the specification (Critical, then Elevated,
then Optimal, then Normal), for every input tuple. -/
theorem claim_C7 (ta vEff tc I Imax : ℝ) :
    assessRisk ta vEff tc I Imax = riskRender (assessRiskSpec ta vEff tc I Imax) := by
  unfold assessRisk assessRiskSpec
  split_ifs <;> rfl

/-- Claim C8: the split (CIGRE-like) convective flux floors the temperature
delta and the wind at zero before exponentiation, hence is non-negative for
every input. -/
theorem claim_C8 (vEff ta tc : ℝ) : 0 ≤ qConvectiveCIGRE vEff ta tc :=
  qConvectiveCIGRE_nonneg vEff ta tc

/-- Claim C9: the rating percentage divides by max(1e-6, reference
ampacity), whose value is always strictly positive, and the clamped result
lies in the interval from 0 to 300 for every pair of ampacities. -/
theorem claim_C9 (imax iStatic : ℝ) :
    0 < max 1e-6 iStatic ∧ 0 ≤ dlrPercent imax iStatic ∧ dlrPercent imax iStatic ≤ 300 := by
  refine ⟨lt_of_lt_of_le (by norm_num) (le_max_left _ _), ?_, ?_⟩
  · exact le_clamp _ 0 300
  · exact clamp_le _ 0 300 (by norm_num)

/-- Claim C10: the heuristic (IEEE-like) convective flux applies no floor
to the temperature delta, so it is strictly negative whenever the conductor
is colder than the air, for every non-negative effective wind. -/
theorem claim_C10 (vEff ta tc : ℝ) (hv : 0 ≤ vEff) (h : tc < ta) :
    qConvectiveIEEE vEff ta tc < 0 :=
  qConvectiveIEEE_neg h

/-- Witness for claim C10 at wind 0, air temperature 10, conductor temperature 0. -/
theorem claim_C10_witness :
    (0:ℝ) ≤ 0 ∧ (0:ℝ) < 10 ∧ qConvectiveIEEE 0 10 0 < 0 :=
  ⟨le_rfl, by norm_num, claim_C10 0 10 0 le_rfl (by norm_num)⟩

/-! Claim theorems about the equilibrium and ampacity solvers. -/

/-- Claim C1, amended: for every ambient state with air temperature at most
85 degrees (so that the clamp interval is non-empty) and either convection
model, the equilibrium solver returns a conductor temperature in the closed
interval from Ta - 5 to the 80-degree limit. -/
theorem claim_C1 (ta vEff ghi I : ℝ) (model : ModelType)
    (hv : 0 ≤ vEff) (hg : 0 ≤ ghi) (hI : 0 ≤ I) (hta : ta ≤ 85) :
    ta - 5 ≤ solveConductorTemp ta vEff ghi I model ∧
      solveConductorTemp ta vEff ghi I model ≤ 80 := by
  have h := solveConductorTemp_mem ta vEff ghi I model hta
  unfold TC_MIN_DELTA TC_MAX at h
  exact ⟨by linarith [h.1], by linarith [h.2]⟩

/-- Witness for claim C1 at the static reference state under the IEEE-like model. -/
theorem claim_C1_witness :
    (35:ℝ) - 5 ≤ solveConductorTemp 35 0.6 800 0 ModelType.ieee ∧
      solveConductorTemp 35 0.6 800 0 ModelType.ieee ≤ 80 :=
  claim_C1 35 0.6 800 0 ModelType.ieee (by norm_num) (by norm_num) le_rfl (by norm_num)

/-- Counterexample to claim C1 as stated: at air temperature 100 the solver
returns 100 - 5 = 95, which exceeds the 80-degree limit (the claimed
interval is empty there). -/
theorem claim_C1_cex :
    solveConductorTemp 100 0 0 0 ModelType.ieee = 95 ∧
      ¬ solveConductorTemp 100 0 0 0 ModelType.ieee ≤ 80 := by
  have h : solveConductorTemp 100 0 0 0 ModelType.ieee = 95 := by
    rw [solveConductorTemp_degenerate (by norm_num)]
    norm_num
  exact ⟨h, by rw [h]; norm_num⟩

/-- Claim C4: whenever the zero-current equilibrium temperature is within
0.05 degrees of the 80-degree limit, the ampacity solver returns exactly 0. -/
theorem claim_C4 (ta ghi vEff : ℝ) (model : ModelType)
    (h : |solveConductorTemp ta vEff ghi 0 model - 80| ≤ 0.05) :
    solveAmpacity ta ghi vEff model = 0 := by
  unfold solveAmpacity
  rw [if_pos]
  show estimateConductorTemp ta ghi vEff 0 model ≥ TC_MAX - 0.05
  unfold estimateConductorTemp TC_MAX
  have h1 := (abs_le.mp h).1
  linarith

/-- Witness for claim C4 at air temperature 85 (where the clamp interval is
the single point 80, so the zero-current temperature is exactly the limit). -/
theorem claim_C4_witness :
    |solveConductorTemp 85 0 0 0 ModelType.ieee - 80| ≤ 0.05 ∧
      solveAmpacity 85 0 0 ModelType.ieee = 0 := by
  have h : |solveConductorTemp 85 0 0 0 ModelType.ieee - 80| ≤ 0.05 := by
    rw [solveConductorTemp_degenerate (le_refl 85)]
    norm_num
  exact ⟨h, claim_C4 85 0 0 ModelType.ieee h⟩

/-- Claim C2, amended: each single damped update of the equilibrium solver
from a common conductor temperature is non-decreasing in the current
whenever the conductor resistance at that temperature is non-negative; the
composed 60-step solver output is not monotone in the current in general
(see the counterexample). -/
theorem claim_C2 (ta vEff ghi tc I1 I2 : ℝ) (model : ModelType)
    (h0 : 0 ≤ I1) (h12 : I1 ≤ I2) (hR : 0 ≤ resistancePerM tc) :
    tcUpdate ta vEff ghi I1 model tc ≤ tcUpdate ta vEff ghi I2 model tc := by
  unfold tcUpdate
  apply clamp_mono
  have hres : tcResid ta vEff ghi I1 model tc ≤ tcResid ta vEff ghi I2 model tc := by
    unfold tcResid qJoule
    have hsq : I1 * I1 ≤ I2 * I2 := mul_self_le_mul_self h0 h12
    have := mul_le_mul_of_nonneg_right hsq hR
    linarith
  have hstep : tcStep ta vEff ghi I1 model tc ≤ tcStep ta vEff ghi I2 model tc := by
    unfold tcStep
    exact div_le_div_of_nonneg_right hres (tcSlope_pos ta vEff model tc).le
  linarith

/-- Witness for claim C2 at conductor temperature 20 and currents 1 and 2. -/
theorem claim_C2_witness :
    (0:ℝ) ≤ 1 ∧ (1:ℝ) ≤ 2 ∧ 0 ≤ resistancePerM 20 ∧
      tcUpdate 0 0 0 1 ModelType.ieee 20 ≤ tcUpdate 0 0 0 2 ModelType.ieee 20 := by
  have hR : (0:ℝ) ≤ resistancePerM 20 := by
    unfold resistancePerM R20_PER_M ALPHA_R
    norm_num
  exact ⟨by norm_num, by norm_num, hR,
    claim_C2 0 0 0 20 1 2 ModelType.ieee (by norm_num) (by norm_num) hR⟩

/-- Counterexample to claim C2 as stated: at air temperature -300 (where
the linear resistance model turns negative below about -236 degrees) the
solver returns 80 at current 0 but -305 at current 1e8, so the conductor
temperature is not non-decreasing in the current. -/
theorem claim_C2_cex :
    (0:ℝ) ≤ 0 ∧ (0:ℝ) ≤ 100000000 ∧
      ¬ solveConductorTemp (-300) 0 1000000000 0 ModelType.ieee ≤
          solveConductorTemp (-300) 0 1000000000 100000000 ModelType.ieee := by
  refine ⟨le_rfl, by norm_num, ?_⟩
  rw [cex_run1, cex_run2]
  norm_num

/-- Claim C3, amended: for every ambient state with air temperature at most
85 degrees, whenever the ampacity search terminates through one of its
temperature-tolerance tests (the zero-current guard or the bisection exit
with |tc_mid - 80| < 0.05), feeding the returned current back into the
equilibrium solver yields a temperature within 0.1 degrees of the limit;
without these provisos the round trip can miss the limit (see the
counterexample). -/
theorem claim_C3 (ta ghi vEff : ℝ) (model : ModelType) (hta : ta ≤ 85)
    (hflag : (solveAmpacityE ta ghi vEff model).2 = true) :
    |solveConductorTemp ta vEff ghi (solveAmpacity ta ghi vEff model) model - 80| ≤ 0.1 := by
  unfold solveAmpacityE at hflag
  unfold solveAmpacity
  split_ifs at hflag ⊢ with hguard
  · have hub := (solveConductorTemp_mem ta vEff ghi 0 model hta).2
    unfold estimateConductorTemp TC_MAX at hguard
    unfold TC_MAX at hub
    rw [abs_le]
    constructor <;> [linarith [hguard]; linarith]
  · have h := ampBisectE_flag ta ghi vEff model 40 0 (ampGrow ta ghi vEff model 10 4000) hflag
    rw [ampBisectE_fst] at h
    unfold estimateConductorTemp TC_MAX at h
    exact h.le.trans (by norm_num)

/-- Witness for claim C3 at air temperature 85 (the zero-current guard
fires, and the round trip lands exactly on the limit). -/
theorem claim_C3_witness :
    (85:ℝ) ≤ 85 ∧ (solveAmpacityE 85 0 0 ModelType.ieee).2 = true ∧
      |solveConductorTemp 85 0 0 (solveAmpacity 85 0 0 ModelType.ieee) ModelType.ieee - 80|
        ≤ 0.1 := by
  have hflag : (solveAmpacityE 85 0 0 ModelType.ieee).2 = true := by
    unfold solveAmpacityE
    rw [if_pos]
    show estimateConductorTemp 85 0 0 0 ModelType.ieee ≥ TC_MAX - 0.05
    unfold estimateConductorTemp TC_MAX
    rw [solveConductorTemp_degenerate (le_refl 85)]
    norm_num
  exact ⟨le_rfl, hflag, claim_C3 85 0 0 ModelType.ieee le_rfl hflag⟩

/-- Counterexample to claim C3 as stated: at air temperature 100 the
ampacity solver returns 0 through its zero-current guard, but the round
trip temperature is 95, which misses the 80-degree limit by 15 degrees. -/
theorem claim_C3_cex :
    ¬ |solveConductorTemp 100 0 0 (solveAmpacity 100 0 0 ModelType.ieee) ModelType.ieee - 80|
        ≤ 0.1 := by
  have hamp : solveAmpacity 100 0 0 ModelType.ieee = 0 := by
    unfold solveAmpacity
    rw [if_pos]
    show estimateConductorTemp 100 0 0 0 ModelType.ieee ≥ TC_MAX - 0.05
    unfold estimateConductorTemp TC_MAX
    rw [solveConductorTemp_degenerate (by norm_num)]
    norm_num
  rw [hamp, solveConductorTemp_degenerate (by norm_num)]
  rw [abs_le]
  intro h
  have := h.2
  norm_num at this

end DLR
